import Mathlib

/-!
Verification of the file-materialization layer of pyscaffold
(`src/pyscaffold/operations.py`) and its supporting utilities, against the
natural-language specification.

The filesystem is modelled as an association list from paths to file states
(permission mode plus textual contents).  A file operation takes a path, an
optional content, an options dictionary and a filesystem, and returns the
optional result path, the new filesystem, and the list of reports emitted to
the logging sink, in order.
-/

set_option autoImplicit false

namespace PyScaffold

/-- State of a single file on disk: permission mode bits and text contents. -/
structure FileState where
  mode : Nat
  contents : String
  deriving DecidableEq

/-- The filesystem: an association list from path to file state. -/
abbrev FS := List (String × FileState)

/-- Action tags sent to the reporting sink (`logger.report` in the source). -/
inductive Action where
  | create
  | skip
  | chmod (mode : Nat)
  deriving DecidableEq

/-- A report: an action tag together with the path it concerns. -/
abbrev Report := Action × String

/-- The options dictionary (`ScaffoldOpts`): keys mapped to boolean values.
A key may be absent, mirroring `opts.get(key)` returning `None`. -/
abbrev ScaffoldOpts := List (String × Bool)

/-- Model of `opts.get(key)` from Python: `none` when the key is missing. -/
def optGet : ScaffoldOpts → String → Option Bool
  | [], _ => none
  | (k, v) :: t, key => if k = key then some v else optGet t key

/-- Python truthiness of an optional boolean: `None` is falsy. -/
def truthy (o : Option Bool) : Bool :=
  o.getD false

/-- Look a path up in the filesystem association list. -/
def findFile : FS → String → Option FileState
  | [], _ => none
  | (q, st) :: t, p => if q = p then some st else findFile t p

/-- Insert or overwrite the state of a path in the filesystem. -/
def setFile : FS → String → FileState → FS
  | [], p, st => [(p, st)]
  | (q, s) :: t, p, st => if q = p then (p, st) :: t else (q, s) :: setFile t p st

/-- Model of `path.exists()`: does the path refer to a file on disk? -/
def fsExists (fs : FS) (p : String) : Bool :=
  (findFile fs p).isSome

/-- Model of `path.stat().st_mode`: the permission mode of an existing file
(`0` as a default for a missing file; the source only calls it
after an existence check). -/
def statMode (fs : FS) (p : String) : Nat :=
  ((findFile fs p).map FileState.mode).getD 0

/-- Default permission mode the OS gives to a freshly created file. -/
def defaultMode : Nat := 0o644

/-- Model of `path.write_text(contents)`: create the file with the OS default mode, or
overwrite the contents of an existing file keeping its mode. -/
def writeFS (fs : FS) (p : String) (c : String) : FS :=
  match findFile fs p with
  | some st => setFile fs p (FileState.mk st.mode c)
  | none => setFile fs p (FileState.mk defaultMode c)

/-- Model of `path.chmod(mode)`: set the permission mode of an existing file. -/
def chmodFS (fs : FS) (p : String) (m : Nat) : FS :=
  match findFile fs p with
  | some st => setFile fs p (FileState.mk m st.contents)
  | none => fs

/-- Modelled from the spec: `utils.create_file(path, content, pretend)` is not
under `src/`; per spec sections 4.1 and 6 it writes the content to the path
(honouring `pretend`: no disk mutation when truthy), emits a "create" report
either way (the log of a dry run is indistinguishable from that of a real run), and
returns the path. -/
def create_file (path : String) (contents : String) (pretend : Option Bool)
    (fs : FS) : String × FS × List Report :=
  (path, if truthy pretend then fs else writeFS fs path contents,
    [(Action.create, path)])

/-- Modelled from the spec: `utils.chmod(path, mode, pretend)` is not under
`src/`; per spec section 6 it applies the mode (honouring `pretend`), emits a
"chmod" report with the mode either way, and — per the `FileOp` convention of
`operations.py` (a changed file, "such as new access permissions", yields the
path) — returns the path. -/
def chmod (path : String) (mode : Nat) (pretend : Option Bool)
    (fs : FS) : String × FS × List Report :=
  (path, if truthy pretend then fs else chmodFS fs path mode,
    [(Action.chmod mode, path)])

/-- Signature of file operations (`FileOp` in `operations.py`), with the
filesystem threaded explicitly and the emitted reports collected in order. -/
abbrev FileOp := String → Option String → ScaffoldOpts → FS →
  Option String × FS × List Report

/-- Embedding of `operations.create`: when contents is `None` do nothing and return `None`;
otherwise delegate to `utils.create_file` with the `pretend` option. -/
def create (path : String) (contents : Option String) (opts : ScaffoldOpts)
    (fs : FS) : Option String × FS × List Report :=
  match contents with
  | none => (none, fs, [])
  | some c =>
      let r := create_file path c (optGet opts "pretend") fs
      (some r.1, r.2)

/-- Embedding of `operations.no_overwrite`: the returned `_no_overwrite` closure delegates
when `force` is truthy or the path does not exist; otherwise it reports
"skip" and returns `None`. -/
def no_overwrite (file_op : FileOp) : FileOp :=
  fun path contents opts fs =>
    if truthy (optGet opts "force") || !fsExists fs path then
      file_op path contents opts fs
    else
      (none, fs, [(Action.skip, path)])

/-- Embedding of `operations.skip_on_update`: the returned `_skip_on_update` closure
delegates when `force` is truthy or `update` is not truthy; otherwise it
reports "skip" and returns `None`. -/
def skip_on_update (file_op : FileOp) : FileOp :=
  fun path contents opts fs =>
    if truthy (optGet opts "force") || !truthy (optGet opts "update") then
      file_op path contents opts fs
    else
      (none, fs, [(Action.skip, path)])

/-- Embedding of `operations.add_permissions`: the returned `_add_permissions` closure runs
the inner operation first; if the path then exists on disk it ORs the
requested permissions into the current mode via `utils.chmod` and returns
the result of that call, otherwise it returns the value of the inner operation. -/
def add_permissions (permissions : Nat) (file_op : FileOp) : FileOp :=
  fun path contents opts fs =>
    let r := file_op path contents opts fs
    if fsExists r.2.1 path then
      let mode := statMode r.2.1 path ||| permissions
      let c := chmod path mode (optGet opts "pretend") r.2.1
      (some c.1, c.2.1, r.2.2 ++ c.2.2)
    else
      (r.1, r.2.1, r.2.2)

/-- Syntax of compositions of the pipeline wrappers around the base
operation `create`. -/
inductive OpExpr where
  | base
  | no_overwrite_w (inner : OpExpr)
  | skip_on_update_w (inner : OpExpr)
  | add_permissions_w (permissions : Nat) (inner : OpExpr)
  deriving DecidableEq

/-- Interpret a composition as the file operation it denotes. -/
def OpExpr.run : OpExpr → FileOp
  | .base => create
  | .no_overwrite_w e => no_overwrite e.run
  | .skip_on_update_w e => skip_on_update e.run
  | .add_permissions_w p e => add_permissions p e.run

/-- Whether a composition is free of the `add_permissions` wrapper. -/
def OpExpr.permFree : OpExpr → Bool
  | .base => true
  | .no_overwrite_w e => e.permFree
  | .skip_on_update_w e => e.permFree
  | .add_permissions_w _ _ => false

/-! ### Identifier utilities (spec section 4.6)

`utils.is_valid_identifier` and `utils.make_valid_identifier` are not under
`src/`; they are modelled from the spec, cross-checked against the repository
test `tests/test_utils.py` (`test_is_valid_identifier`,
`test_make_valid_identifier`), which is the code authority where it speaks.
-/

/-- Characters allowed after the first position of an identifier. -/
def isIdentChar (c : Char) : Bool :=
  c.isAlphanum || c = '_'

/-- Characters allowed at the first position of an identifier. -/
def isIdentStart (c : Char) : Bool :=
  c.isAlpha || c = '_'

/-- The reserved-word set (Python keywords, per the scaffolding domain). -/
def reservedWords : List String :=
  ["False", "None", "True", "and", "as", "assert", "async", "await",
   "break", "class", "continue", "def", "del", "elif", "else", "except",
   "finally", "for", "from", "global", "if", "in", "is",
   "lambda", "nonlocal", "not", "or", "pass", "raise", "return", "try",
   "while", "with", "yield",
   "\x69mport"]

/-- Modelled from the spec: `utils.is_valid_identifier(s)` is not under
`src/`; true iff `s` matches the identifier grammar
(letter/underscore start, alphanumeric/underscore continuation) and is not a
reserved word. -/
def is_valid_identifier (s : String) : Bool :=
  match s.toList with
  | [] => false
  | c :: t => isIdentStart c && t.all isIdentChar && !reservedWords.contains s

/-- Strip leading and trailing whitespace from a character list. -/
def trimChars (l : List Char) : List Char :=
  ((l.dropWhile Char.isWhitespace).reverse.dropWhile Char.isWhitespace).reverse

/-- Modelled from the spec: the clean-up phase of
`utils.make_valid_identifier`, which is not under `src/`.  It strips
leading/trailing whitespace, turns whitespace and hyphen characters into
underscores, removes the remaining non-identifier characters (the repository
test expects `"special chars%"` to clean up to `"special_chars"`, so such
characters are deleted, not underscored), lower-cases, and strips leading
digits. -/
def cleanup (s : String) : String :=
  let l := trimChars s.toList
  let l := l.filterMap fun c =>
    if isIdentChar c then some c
    else if c = '-' || c.isWhitespace then some '_'
    else none
  let l := l.map Char.toLower
  (l.dropWhile Char.isDigit).asString

/-- Modelled from the spec: `utils.make_valid_identifier(s)` is not under
`src/`; it cleans `s` up and fails with the `InvalidIdentifier` configuration
error (modelled as `none`) when the result is still not a valid identifier —
in particular when it is a reserved word. -/
def make_valid_identifier (s : String) : Option String :=
  let c := cleanup s
  if is_valid_identifier c then some c else none

/-- Replace each maximal run of non-identifier characters with a single
underscore (the clean-up rule exactly as the spec words it). -/
def collapseAux : List Char → Bool → List Char
  | [], _ => []
  | c :: t, inRun =>
      if isIdentChar c then c :: collapseAux t false
      else if inRun then collapseAux t true
      else '_' :: collapseAux t true

/-- The clean-up phase following the wording of the spec literally: lower-case,
strip leading/trailing whitespace, replace each run of non-identifier
characters with a single underscore, strip leading digits. -/
def cleanupSpecRule (s : String) : String :=
  let l := s.toList.map Char.toLower
  let l := trimChars l
  let l := collapseAux l false
  (l.dropWhile Char.isDigit).asString

/-- The function `make_valid_identifier` as the spec words it (run-collapsing clean-up),
kept for comparison with the test expectations of the repository. -/
def makeValidIdentifierSpecRule (s : String) : Option String :=
  let c := cleanupSpecRule s
  if is_valid_identifier c then some c else none

/-! ### Requirement reconciler (spec section 4.5)

The reconciler (`utils.get_requirements_str` and friends) is not under
`src/`; it is modelled from the spec, cross-checked against the repository
test `tests/test_utils.py::test_get_requirements_str`.
-/

/-- The package name of a requirement string: its maximal leading run of
name characters (letters, digits, `_`, `-`, `.`). -/
def depName (req : String) : String :=
  (req.toList.takeWhile fun c =>
    c.isAlphanum || c = '_' || c = '-' || c = '.').asString

/-- Numeric value of a list of decimal digit characters. -/
def digitsVal (l : List Char) : Nat :=
  l.foldl (fun n c => n * 10 + (c.toNat - 48)) 0

/-- Modelled from the spec: the leading component parsed from a version string; `none`
on a malformed version string (fail fast). -/
def versionMajor (v : String) : Option Nat :=
  match v.toList.takeWhile Char.isDigit with
  | [] => none
  | ds => some (digitsVal ds)

/-- Modelled from the spec: `nextMajor` increments the leading version
component and zeroes the rest. -/
def nextMajor (v : String) : Option String :=
  (versionMajor v).map fun m => toString (m + 1) ++ ".0"

/-- The generated constraint for one owned package:
`"name>=V,<nextMajor(V)"`. -/
def genOwned (nv : String × String) : Option String :=
  (nextMajor nv.2).map fun nm => nv.1 ++ ">=" ++ nv.2 ++ ",<" ++ nm

/-- Map a fallible function over a list, failing if any element fails. -/
def mapOpt {α β : Type} (f : α → Option β) : List α → Option (List β)
  | [] => some []
  | a :: t =>
      match f a, mapOpt f t with
      | some b, some r => some (b :: r)
      | _, _ => none

/-- Lower-case every character of a string. -/
def toLowerStr (s : String) : String :=
  (s.toList.map Char.toLower).asString

/-- Does the package name of the requirement collide (case-insensitively) with an
owned package name? -/
def isOwned (owned : List (String × String)) (req : String) : Bool :=
  owned.any fun nv => toLowerStr nv.1 == toLowerStr (depName req)

/-- Modelled from the spec: `reconcile(declared, owned)` emits one generated
constraint per owned package (in the order of `owned`), then the declared
constraints whose name does not case-insensitively collide with an owned
name, in their original relative order; a malformed owned version fails
fast (`none`). -/
def reconcile (declared : List String) (owned : List (String × String)) :
    Option (List String) :=
  (mapOpt genOwned owned).map fun gens =>
    gens ++ declared.filter fun d => !isOwned owned d

/-! ### Helper lemmas -/

theorem find_setFile_self (l : FS) (p : String) (st : FileState) :
    findFile (setFile l p st) p = some st := by
  induction l with
  | nil => simp [setFile, findFile]
  | cons hd t ih =>
      by_cases h : hd.1 = p
      · simp [setFile, findFile, h]
      · simp [setFile, findFile, h, ih]

theorem find_writeFS (fs : FS) (p : String) (c : String) (st : FileState)
    (h : findFile fs p = some st) :
    findFile (writeFS fs p c) p = some (FileState.mk st.mode c) := by
  simp [writeFS, h, find_setFile_self]

theorem find_chmodFS (fs : FS) (p : String) (m : Nat) (st : FileState)
    (h : findFile fs p = some st) :
    findFile (chmodFS fs p m) p = some (FileState.mk m st.contents) := by
  simp [chmodFS, h, find_setFile_self]

theorem mapOpt_length {α β : Type} (f : α → Option β) (l : List α)
    (r : List β) (h : mapOpt f l = some r) : r.length = l.length := by
  induction l generalizing r with
  | nil => simp [mapOpt] at h; simp [h.symm]
  | cons a t ih =>
      simp only [mapOpt] at h
      cases hfa : f a with
      | none => rw [hfa] at h; exact absurd h (by simp)
      | some b =>
          rw [hfa] at h
          cases hmt : mapOpt f t with
          | none => rw [hmt] at h; exact absurd h (by simp)
          | some rt =>
              rw [hmt] at h
              cases h
              simp [List.length_cons, ih rt hmt]

theorem reserved_not_valid (t : String)
    (h : reservedWords.contains t = true) : is_valid_identifier t = false := by
  have hmem : t ∈ reservedWords := by simpa using h
  unfold is_valid_identifier
  cases ht : t.toList with
  | nil => rfl
  | cons c l => simp [hmem]

/-- Running any composition of the pipeline wrappers with a truthy
`pretend` leaves the filesystem untouched. -/
theorem pretend_no_mutation (e : OpExpr) (path : String)
    (contents : Option String) (opts : ScaffoldOpts) (fs : FS)
    (hp : truthy (optGet opts "pretend") = true) :
    (OpExpr.run e path contents opts fs).2.1 = fs := by
  induction e with
  | base =>
      cases contents with
      | none => rfl
      | some c => simp [OpExpr.run, create, create_file, hp]
  | no_overwrite_w e ih =>
      simp only [OpExpr.run, no_overwrite]
      by_cases h : (truthy (optGet opts "force") || !fsExists fs path) = true
      · simp [h, ih]
      · simp [h]
  | skip_on_update_w e ih =>
      simp only [OpExpr.run, skip_on_update]
      by_cases h : (truthy (optGet opts "force") || !truthy (optGet opts "update")) = true
      · simp [h, ih]
      · simp [h]
  | add_permissions_w p e ih =>
      simp only [OpExpr.run, add_permissions, ih, chmod, hp, ite_true]
      split <;> rfl

/-- For compositions free of `add_permissions`, the emitted report sequence
depends only on the truthiness of `force` and `update`, never on `pretend`. -/
theorem permFree_reports (e : OpExpr) (hfree : e.permFree = true)
    (path : String) (contents : Option String) (fs : FS)
    (o₁ o₂ : ScaffoldOpts)
    (hf : truthy (optGet o₁ "force") = truthy (optGet o₂ "force"))
    (hu : truthy (optGet o₁ "update") = truthy (optGet o₂ "update")) :
    (OpExpr.run e path contents o₁ fs).2.2 =
      (OpExpr.run e path contents o₂ fs).2.2 := by
  induction e with
  | base =>
      cases contents with
      | none => rfl
      | some c => simp [OpExpr.run, create, create_file]
  | no_overwrite_w e ih =>
      simp only [OpExpr.run, no_overwrite, hf]
      by_cases h : (truthy (optGet o₂ "force") || !fsExists fs path) = true
      · simp [h]; exact ih hfree
      · simp [h]
  | skip_on_update_w e ih =>
      simp only [OpExpr.run, skip_on_update, hf, hu]
      by_cases h : (truthy (optGet o₂ "force") || !truthy (optGet o₂ "update")) = true
      · simp [h]; exact ih hfree
      · simp [h]
  | add_permissions_w p e ih =>
      exact absurd hfree (by simp [OpExpr.permFree])

/-- The modelled `chmod` only consults the truthiness of its `pretend` argument. -/
theorem chmod_truthy_congr (path : String) (mode : Nat) (p₁ p₂ : Option Bool)
    (fs : FS) (h : truthy p₁ = truthy p₂) :
    chmod path mode p₁ fs = chmod path mode p₂ fs := by
  simp [chmod, h]

/-! ### Claims -/

/-- C4: for every path and every options dict, calling `create` with absent
contents (`None`) touches no filesystem state, emits no report, and returns
the absent marker, regardless of the `force`, `update` and `pretend` flags. -/
theorem claim_C4 (path : String) (opts : ScaffoldOpts) (fs : FS) :
    create path none opts fs = (none, fs, []) := rfl

/-- C5: `no_overwrite f` delegates to `f` and returns its full result
whenever `force` is truthy or the path does not exist; otherwise it performs
no write, leaves the filesystem (hence the prior contents of the file) unchanged,
emits exactly one "skip" report with the path, and returns absent. -/
theorem claim_C5 (f : FileOp) (path : String) (contents : Option String)
    (opts : ScaffoldOpts) (fs : FS) :
    (truthy (optGet opts "force") = true ∨ fsExists fs path = false →
      no_overwrite f path contents opts fs = f path contents opts fs) ∧
    (truthy (optGet opts "force") = false → fsExists fs path = true →
      no_overwrite f path contents opts fs =
        (none, fs, [(Action.skip, path)])) := by
  constructor
  · intro h
    rcases h with h | h <;> simp [no_overwrite, h]
  · intro h1 h2
    simp [no_overwrite, h1, h2]

/-- Witness for C5: with an empty options dict (so `force` is missing, hence
falsy) and an existing path, `no_overwrite create` skips and returns absent. -/
theorem claim_C5_witness :
    (truthy (optGet [] "force") = false ∧
      fsExists [("f", FileState.mk 0o644 "old")] "f" = true) ∧
    no_overwrite create "f" (some "x") [] [("f", FileState.mk 0o644 "old")] =
      (none, [("f", FileState.mk 0o644 "old")], [(Action.skip, "f")]) :=
  ⟨⟨by decide, by decide⟩,
    (claim_C5 create "f" (some "x") [] [("f", FileState.mk 0o644 "old")]).2
      (by decide) (by decide)⟩

/-- C6: `skip_on_update f` delegates to `f` whenever `force` is truthy or
`update` is not truthy (so on a fresh run the inner operation always runs,
regardless of `force` and of existence); otherwise it performs no write even
if the path does not exist, emits one "skip" report, and returns absent. -/
theorem claim_C6 (f : FileOp) (path : String) (contents : Option String)
    (opts : ScaffoldOpts) (fs : FS) :
    (truthy (optGet opts "force") = true ∨ truthy (optGet opts "update") = false →
      skip_on_update f path contents opts fs = f path contents opts fs) ∧
    (truthy (optGet opts "force") = false → truthy (optGet opts "update") = true →
      skip_on_update f path contents opts fs =
        (none, fs, [(Action.skip, path)])) := by
  constructor
  · intro h
    rcases h with h | h <;> simp [skip_on_update, h]
  · intro h1 h2
    simp [skip_on_update, h1, h2]

/-- Witness for C6: on an update run without `force`, `skip_on_update create`
skips even though the path does not exist on the (empty) filesystem. -/
theorem claim_C6_witness :
    (truthy (optGet [("update", true)] "force") = false ∧
      truthy (optGet [("update", true)] "update") = true) ∧
    skip_on_update create "f" (some "x") [("update", true)] [] =
      (none, [], [(Action.skip, "f")]) :=
  ⟨⟨by decide, by decide⟩,
    (claim_C6 create "f" (some "x") [("update", true)] []).2
      (by decide) (by decide)⟩

/-- C10: option keys missing from the options dict behave as explicit
`false`: `create`, `no_overwrite f`, `skip_on_update f` and
`add_permissions P f` produce identical results, filesystems and reports for
any two option dicts whose `force`, `update` and `pretend` entries have the
same truthiness (in particular a dict lacking a key versus the same dict
with that key set to `false`), provided the inner operation `f` itself
agrees on the two dicts. -/
theorem claim_C10 (f : FileOp) (P : Nat) (path : String)
    (contents : Option String) (fs : FS) (o₁ o₂ : ScaffoldOpts)
    (hf : truthy (optGet o₁ "force") = truthy (optGet o₂ "force"))
    (hu : truthy (optGet o₁ "update") = truthy (optGet o₂ "update"))
    (hp : truthy (optGet o₁ "pretend") = truthy (optGet o₂ "pretend"))
    (hinner : f path contents o₁ fs = f path contents o₂ fs) :
    create path contents o₁ fs = create path contents o₂ fs ∧
    no_overwrite f path contents o₁ fs = no_overwrite f path contents o₂ fs ∧
    skip_on_update f path contents o₁ fs =
      skip_on_update f path contents o₂ fs ∧
    add_permissions P f path contents o₁ fs =
      add_permissions P f path contents o₂ fs := by
  refine ⟨?_, ?_, ?_, ?_⟩
  · cases contents with
    | none => rfl
    | some c => simp [create, create_file, hp]
  · simp only [no_overwrite, hf]
    split
    · exact hinner
    · rfl
  · simp only [skip_on_update, hf, hu]
    split
    · exact hinner
    · rfl
  · simp only [add_permissions, hinner, chmod, hp]

/-- Witness for C10: the empty options dict versus all three keys explicitly
`false`, around the inner operation `create`, on an existing path. -/
theorem claim_C10_witness :
    (truthy (optGet [] "force") =
        truthy (optGet [("force", false), ("update", false), ("pretend", false)]
          "force") ∧
      truthy (optGet [] "update") =
        truthy (optGet [("force", false), ("update", false), ("pretend", false)]
          "update") ∧
      truthy (optGet [] "pretend") =
        truthy (optGet [("force", false), ("update", false), ("pretend", false)]
          "pretend") ∧
      create "f" (some "x") [] [("f", FileState.mk 0o644 "old")] =
        create "f" (some "x")
          [("force", false), ("update", false), ("pretend", false)]
          [("f", FileState.mk 0o644 "old")]) ∧
    no_overwrite create "f" (some "x") [] [("f", FileState.mk 0o644 "old")] =
      no_overwrite create "f" (some "x")
        [("force", false), ("update", false), ("pretend", false)]
        [("f", FileState.mk 0o644 "old")] :=
  ⟨⟨by decide, by decide, by decide, by decide⟩,
    (claim_C10 create 0o111 "f" (some "x") [("f", FileState.mk 0o644 "old")]
      [] [("force", false), ("update", false), ("pretend", false)]
      (by decide) (by decide) (by decide) (by decide)).2.1⟩

/-- Counterexample to C1 as stated: with `{force:false, update:true,
pretend:false}` and an existing path, `add_permissions(0o111,
skip_on_update(create))` does NOT return absent with a single "skip" report
and an untouched filesystem — the `_add_permissions` closure of the source chmods the
pre-existing file and returns the chmod result. -/
theorem claim_C1_counterexample :
    ¬ ((add_permissions 0o111 (skip_on_update create) "f" (some "x")
          [("force", false), ("update", true), ("pretend", false)]
          [("f", FileState.mk 0o644 "old")]).1 = none ∧
       (add_permissions 0o111 (skip_on_update create) "f" (some "x")
          [("force", false), ("update", true), ("pretend", false)]
          [("f", FileState.mk 0o644 "old")]).2.1 =
         [("f", FileState.mk 0o644 "old")] ∧
       (add_permissions 0o111 (skip_on_update create) "f" (some "x")
          [("force", false), ("update", true), ("pretend", false)]
          [("f", FileState.mk 0o644 "old")]).2.2 =
         [(Action.skip, "f")]) := by
  decide

/-- C1 (amended): with options of falsy `force`, truthy `update` and falsy
`pretend` and an existing path, `add_permissions(0o111,
skip_on_update(create))` performs no content write, emits a "skip" report
followed by a "chmod" report, ORs `0o111` into the mode of the file (leaving the
mode unchanged only when those bits were already set), and returns the path,
not absent. -/
theorem claim_C1 (path : String) (contents : Option String)
    (opts : ScaffoldOpts) (fs : FS) (st : FileState)
    (hforce : truthy (optGet opts "force") = false)
    (hupdate : truthy (optGet opts "update") = true)
    (hpretend : truthy (optGet opts "pretend") = false)
    (hfind : findFile fs path = some st) :
    add_permissions 0o111 (skip_on_update create) path contents opts fs =
      (some path,
       setFile fs path (FileState.mk (st.mode ||| 0o111) st.contents),
       [(Action.skip, path), (Action.chmod (st.mode ||| 0o111), path)]) := by
  simp [add_permissions, skip_on_update, chmod, chmodFS, fsExists, statMode,
    hforce, hupdate, hpretend, hfind]

/-- Witness for C1 (amended) at a concrete existing file of mode `0o644`. -/
theorem claim_C1_witness :
    (truthy (optGet [("force", false), ("update", true), ("pretend", false)]
        "force") = false ∧
      truthy (optGet [("force", false), ("update", true), ("pretend", false)]
        "update") = true ∧
      truthy (optGet [("force", false), ("update", true), ("pretend", false)]
        "pretend") = false ∧
      findFile [("f", FileState.mk 0o644 "old")] "f" =
        some (FileState.mk 0o644 "old")) ∧
    add_permissions 0o111 (skip_on_update create) "f" (some "x")
        [("force", false), ("update", true), ("pretend", false)]
        [("f", FileState.mk 0o644 "old")] =
      (some "f",
       setFile [("f", FileState.mk 0o644 "old")] "f"
         (FileState.mk (0o644 ||| 0o111) "old"),
       [(Action.skip, "f"), (Action.chmod (0o644 ||| 0o111), "f")]) :=
  ⟨⟨by decide, by decide, by decide, by decide⟩,
    claim_C1 "f" (some "x")
      [("force", false), ("update", true), ("pretend", false)]
      [("f", FileState.mk 0o644 "old")] (FileState.mk 0o644 "old")
      (by decide) (by decide) (by decide) (by decide)⟩

/-- Counterexample to C2 as stated: `add_permissions(0o111, create)` on an
existing path with absent contents returns the path, whereas the inner
`create` returns absent — the wrapper returns the value of the chmod step, not that of the inner operation. -/
theorem claim_C2_counterexample :
    (add_permissions 0o111 create "f" none
        [("force", false), ("update", false), ("pretend", false)]
        [("f", FileState.mk 0o644 "old")]).1 ≠
      (create "f" none
        [("force", false), ("update", false), ("pretend", false)]
        [("f", FileState.mk 0o644 "old")]).1 := by
  decide

/-- C2 (amended): `add_permissions(P, inner)` returns the value of the inner
operation exactly when the path does not exist after the inner operation ran;
when the path does exist afterwards it returns the path (the result of the
chmod step), which need not equal the value of the inner operation. -/
theorem claim_C2 (P : Nat) (f : FileOp) (path : String)
    (contents : Option String) (opts : ScaffoldOpts) (fs : FS) :
    (fsExists (f path contents opts fs).2.1 path = false →
      (add_permissions P f path contents opts fs).1 =
        (f path contents opts fs).1) ∧
    (fsExists (f path contents opts fs).2.1 path = true →
      (add_permissions P f path contents opts fs).1 = some path) := by
  constructor
  · intro h
    simp [add_permissions, h]
  · intro h
    simp [add_permissions, chmod, h]

/-- Witness for C2 (amended): both branches at concrete inputs — a missing
path propagates the value of `create`, an existing path yields the path. -/
theorem claim_C2_witness :
    (fsExists (create "f" (some "x") [("pretend", true)] []).2.1 "f" = false ∧
      (add_permissions 0o111 create "f" (some "x") [("pretend", true)] []).1 =
        (create "f" (some "x") [("pretend", true)] []).1) ∧
    fsExists (create "g" none [] [("g", FileState.mk 0o644 "old")]).2.1 "g" =
        true ∧
    (add_permissions 0o111 create "g" none []
        [("g", FileState.mk 0o644 "old")]).1 = some "g" :=
  ⟨⟨by decide,
      (claim_C2 0o111 create "f" (some "x") [("pretend", true)] []).1
        (by decide)⟩,
    by decide,
    (claim_C2 0o111 create "g" none [] [("g", FileState.mk 0o644 "old")]).2
      (by decide)⟩

/-- Counterexample to C3 as stated: for `add_permissions(0o111, create)` on a
path that does not yet exist, the pretend run emits only a "create" report
while the real run emits "create" then "chmod" — the report sequences
differ, because the real write makes the path exist and the pretend one does
not. -/
theorem claim_C3_counterexample :
    (OpExpr.run (.add_permissions_w 0o111 .base) "f" (some "x")
        [("pretend", true)] []).2.2 ≠
      (OpExpr.run (.add_permissions_w 0o111 .base) "f" (some "x")
        [("pretend", false)] []).2.2 := by
  decide

/-- C3 (amended): running any composition of the wrappers around `create`
with truthy `pretend` mutates no filesystem state; and for compositions free
of `add_permissions`, the report sequence is identical to that of a run with
falsy `pretend` and the same `force`/`update` truthiness (with
`add_permissions` the real run may emit a "chmod" report the pretend run
lacks, when the path exists only because of the real write). -/
theorem claim_C3 (e : OpExpr) (path : String) (contents : Option String)
    (fs : FS) (o₁ o₂ : ScaffoldOpts) :
    (truthy (optGet o₁ "pretend") = true →
      (OpExpr.run e path contents o₁ fs).2.1 = fs) ∧
    (OpExpr.permFree e = true →
      truthy (optGet o₁ "force") = truthy (optGet o₂ "force") →
      truthy (optGet o₁ "update") = truthy (optGet o₂ "update") →
      (OpExpr.run e path contents o₁ fs).2.2 =
        (OpExpr.run e path contents o₂ fs).2.2) := by
  constructor
  · intro hp
    exact pretend_no_mutation e path contents o₁ fs hp
  · intro hfree hf hu
    exact permFree_reports e hfree path contents fs o₁ o₂ hf hu

/-- Witness for C3 (amended): `no_overwrite(create)` on an existing path,
pretend run versus real run — no mutation, identical (skip) reports. -/
theorem claim_C3_witness :
    (truthy (optGet [("pretend", true)] "pretend") = true ∧
      OpExpr.permFree (.no_overwrite_w .base) = true ∧
      truthy (optGet [("pretend", true)] "force") =
        truthy (optGet [("pretend", false)] "force") ∧
      truthy (optGet [("pretend", true)] "update") =
        truthy (optGet [("pretend", false)] "update")) ∧
    (OpExpr.run (.no_overwrite_w .base) "f" (some "x") [("pretend", true)]
        [("f", FileState.mk 0o644 "old")]).2.1 =
      [("f", FileState.mk 0o644 "old")] ∧
    (OpExpr.run (.no_overwrite_w .base) "f" (some "x") [("pretend", true)]
        [("f", FileState.mk 0o644 "old")]).2.2 =
      (OpExpr.run (.no_overwrite_w .base) "f" (some "x") [("pretend", false)]
        [("f", FileState.mk 0o644 "old")]).2.2 :=
  ⟨⟨by decide, by decide, by decide, by decide⟩,
    (claim_C3 (.no_overwrite_w .base) "f" (some "x")
      [("f", FileState.mk 0o644 "old")] [("pretend", true)]
      [("pretend", false)]).1 (by decide),
    (claim_C3 (.no_overwrite_w .base) "f" (some "x")
      [("f", FileState.mk 0o644 "old")] [("pretend", true)]
      [("pretend", false)]).2 (by decide) (by decide) (by decide)⟩

theorem lor_right_idem (a b : Nat) : (a ||| b) ||| b = a ||| b := by
  rw [Nat.lor_assoc]; simp

/-- After `add_permissions P create` runs with falsy `pretend` on a
pre-existing path, the state of the file has the old mode ORed with `P` and the
written contents (the old contents when contents was absent). -/
theorem addperm_find (P : Nat) (path : String) (contents : Option String)
    (opts : ScaffoldOpts) (fs : FS) (st : FileState)
    (hp : truthy (optGet opts "pretend") = false)
    (h : findFile fs path = some st) :
    findFile (add_permissions P create path contents opts fs).2.1 path =
      some (FileState.mk (st.mode ||| P) (contents.getD st.contents)) := by
  cases contents with
  | none =>
      simp [add_permissions, create, chmod, fsExists, statMode, hp, h,
        find_chmodFS fs path _ st h]
  | some c =>
      have hw := find_writeFS fs path c st h
      simp [add_permissions, create, create_file, chmod, fsExists, statMode,
        hp, h, hw, find_chmodFS _ path _ _ hw]

/-- C7: after `add_permissions P create` runs on an existing path with falsy
`pretend`, the resulting file mode is the bitwise OR of the pre-existing
mode with `P` (hence a bitwise superset of both), and a second application
of the same operation leaves the mode unchanged. -/
theorem claim_C7 (P : Nat) (path : String) (contents : Option String)
    (opts : ScaffoldOpts) (fs : FS) (st : FileState)
    (hp : truthy (optGet opts "pretend") = false)
    (h : findFile fs path = some st) :
    statMode (add_permissions P create path contents opts fs).2.1 path =
      st.mode ||| P ∧
    statMode (add_permissions P create path contents opts
        ((add_permissions P create path contents opts fs).2.1)).2.1 path =
      statMode (add_permissions P create path contents opts fs).2.1 path := by
  have h1 := addperm_find P path contents opts fs st hp h
  have h2 := addperm_find P path contents opts
    (add_permissions P create path contents opts fs).2.1
    (FileState.mk (st.mode ||| P) (contents.getD st.contents)) hp h1
  constructor
  · simp [statMode, h1]
  · simp [statMode, h1, h2, lor_right_idem]

/-- Witness for C7 at a concrete file of mode `0o644` and `P = 0o111`. -/
theorem claim_C7_witness :
    (truthy (optGet [("pretend", false)] "pretend") = false ∧
      findFile [("f", FileState.mk 0o644 "old")] "f" =
        some (FileState.mk 0o644 "old")) ∧
    statMode (add_permissions 0o111 create "f" (some "x") [("pretend", false)]
        [("f", FileState.mk 0o644 "old")]).2.1 "f" = 0o644 ||| 0o111 ∧
    statMode (add_permissions 0o111 create "f" (some "x") [("pretend", false)]
        ((add_permissions 0o111 create "f" (some "x") [("pretend", false)]
          [("f", FileState.mk 0o644 "old")]).2.1)).2.1 "f" =
      statMode (add_permissions 0o111 create "f" (some "x")
        [("pretend", false)] [("f", FileState.mk 0o644 "old")]).2.1 "f" :=
  ⟨⟨by decide, by decide⟩,
    (claim_C7 0o111 "f" (some "x") [("pretend", false)]
      [("f", FileState.mk 0o644 "old")] (FileState.mk 0o644 "old")
      (by decide) (by decide)).1,
    (claim_C7 0o111 "f" (some "x") [("pretend", false)]
      [("f", FileState.mk 0o644 "old")] (FileState.mk 0o644 "old")
      (by decide) (by decide)).2⟩

/-- C8: the reconciler turns `owned={"pkg": "1.2.5"}`,
`declared=["pkg<8","other~=2"]` into `["pkg>=1.2.5,<2.0", "other~=2"]`; in
general it emits the generated owned constraints first (in the order of `owned`)
followed by the declared constraints that do not case-insensitively collide
with an owned name, in original relative order, with exactly one generated
constraint per owned package. -/
theorem claim_C8 :
    reconcile ["pkg<8", "other~=2"] [("pkg", "1.2.5")] =
      some ["pkg>=1.2.5,<2.0", "other~=2"] ∧
    (∀ owned gens declared, mapOpt genOwned owned = some gens →
      reconcile declared owned =
        some (gens ++ declared.filter fun d => !isOwned owned d)) ∧
    (∀ owned res, reconcile [] owned = some res →
      res.length = owned.length) := by
  refine ⟨by decide, ?_, ?_⟩
  · intro owned gens declared h
    simp [reconcile, h]
  · intro owned res h
    simp only [reconcile] at h
    cases hm : mapOpt genOwned owned with
    | none => rw [hm] at h; exact absurd h (by simp)
    | some gens =>
        rw [hm] at h
        simp at h
        rw [← h]
        exact mapOpt_length genOwned owned gens hm

/-- Witness for C8 on a one-package owned map. -/
theorem claim_C8_witness :
    (mapOpt genOwned [("a", "1.0")] = some ["a>=1.0,<2.0"] ∧
      reconcile ["b<2"] [("a", "1.0")] =
        some (["a>=1.0,<2.0"] ++
          ["b<2"].filter fun d => !isOwned [("a", "1.0")] d)) ∧
    reconcile [] [("a", "1.0")] = some ["a>=1.0,<2.0"] ∧
    (["a>=1.0,<2.0"] : List String).length =
      ([("a", "1.0")] : List (String × String)).length :=
  ⟨⟨by decide,
      claim_C8.2.1 [("a", "1.0")] ["a>=1.0,<2.0"] ["b<2"] (by decide)⟩,
    by decide,
    claim_C8.2.2 [("a", "1.0")] ["a>=1.0,<2.0"] (by decide)⟩

/-- Counterexample to C9 as stated: the "replace each run of non-identifier
characters with a single underscore" rule yields `"special_chars_"` on the
input `"special chars%"`, while the repository test
(`test_make_valid_identifier`) expects `"special_chars"` — trailing
non-identifier characters are deleted, not underscored. -/
theorem claim_C9_counterexample :
    makeValidIdentifierSpecRule "special chars%" = some "special_chars_" ∧
    ¬ makeValidIdentifierSpecRule "special chars%" = some "special_chars" := by
  decide

/-- C9 (amended): `make_valid_identifier` lower-cases, strips
leading/trailing whitespace, turns whitespace and hyphens into underscores,
removes the remaining non-identifier characters, and strips leading digits
(matching all expectations of the repository test, in particular
`"has whitespaces "` into `"has_whitespaces"`); and every input whose cleaned-up
form is a reserved word (e.g. `"def"`) fails with the `InvalidIdentifier`
configuration error instead of being renamed. -/
theorem claim_C9 :
    (make_valid_identifier "has whitespaces " = some "has_whitespaces" ∧
      make_valid_identifier "has-hyphon" = some "has_hyphon" ∧
      make_valid_identifier "special chars%" = some "special_chars" ∧
      make_valid_identifier "UpperCase" = some "uppercase" ∧
      make_valid_identifier "def" = none) ∧
    ∀ s, reservedWords.contains (cleanup s) = true →
      make_valid_identifier s = none := by
  refine ⟨by decide, ?_⟩
  intro s h
  have hv := reserved_not_valid (cleanup s) h
  simp [make_valid_identifier, hv]

/-- Witness for C9 (amended) at the reserved word `"def"`. -/
theorem claim_C9_witness :
    reservedWords.contains (cleanup "def") = true ∧
    make_valid_identifier "def" = none :=
  ⟨by decide, claim_C9.2 "def" (by decide)⟩

end PyScaffold
